import Mathlib

/-!
Verification of the elevation-grid core of `gsi-elevation-api`
(`internal/elevation/grid.go` and `internal/elevation/service.go`).

Modelling conventions (shallow embedding):
* Go `float64` values are modelled as exact rationals `ℚ`.  Decimal literals
  of the source (`0.001`, `35.36`, ...) become the exact rationals they denote.
* Go `int` / `int32` / `int16` values are modelled as `Int`; `uint64` is
  modelled as `Nat` reduced modulo `2 ^ 64` wherever the source increments it.
* Go's `int(f)` float-to-int conversion truncates toward zero; it is modelled
  by `ratTrunc`.
* `fmt.Sprintf("%.4f,%.4f", lat, lon)` builds the cache key from the two
  coordinates rounded to 4 decimal digits; the key is modelled as the pair of
  rounded integers (`round4 lat`, `round4 lon`).  Rounding of exact decimal
  ties differs in the last bit from Go's half-to-even formatting; no theorem
  below depends on tie behaviour.
* `sync.Map` is modelled as an association list; `Store` conses the new
  binding at the front, `Load` takes the first (most recent) binding, which
  reproduces overwrite semantics.
* File-system interaction (`os.Open`, `os.Stat`, `binary.Read`) is abstracted
  into the inductive inputs `HeaderSrc` and `DataSrc` describing the outcome
  of those calls: file absent, read/parse failure, or the decoded payload.
* Reading `eg.grid[index]` is modelled totally with `List.getD _ _ 0`; the
  theorems that rely on the read carry the length invariant under which the
  Go read cannot panic.
-/

/-- Truncation toward zero of a rational, the semantics of Go's `int(f)`
conversion for finite `f`. -/
def ratTrunc (q : ℚ) : Int :=
  if q < 0 then ⌈q⌉ else ⌊q⌋

/-- Rounding of a rational to 4 decimal digits, returned scaled by `10^4`;
models the digits produced by `fmt.Sprintf("%.4f", ·)`. -/
def round4 (q : ℚ) : Int :=
  ⌊q * 10000 + 1 / 2⌋

/-- Cache key built by `GetElevation` from the two coordinates rounded to
4 decimal places (`fmt.Sprintf("%.4f,%.4f", lat, lon)`). -/
def cacheKey (lat lon : ℚ) : Int × Int :=
  (round4 lat, round4 lon)

/-- Model of `ElevationGrid` (grid.go).  Field order follows the Go struct;
`hotspotCache` is the `sync.Map` as an association list. -/
structure ElevationGrid where
  grid : List Int
  width : Int
  height : Int
  minLat : ℚ
  maxLat : ℚ
  minLon : ℚ
  maxLon : ℚ
  gridSize : ℚ
  invGridSize : ℚ
  hotspotCache : List ((Int × Int) × ℚ)
deriving DecidableEq, Repr

/-- Model of `GridHeader` (grid.go): the decoded little-endian header record. -/
structure GridHeader where
  width : Int
  height : Int
  minLat : ℚ
  maxLat : ℚ
  minLon : ℚ
  maxLon : ℚ
  gridSize : ℚ
deriving DecidableEq, Repr

/-- Model of `NewElevationGrid`: Go zero values for `grid`, `invGridSize` and
the cache, the documented default geometry for the rest. -/
def newElevationGrid : ElevationGrid :=
  { grid := []
    width := 32000
    height := 26000
    minLat := 20
    maxLat := 46
    minLon := 122
    maxLon := 154
    gridSize := 1 / 1000
    invGridSize := 0
    hotspotCache := [] }

/-- Lookup in the modelled `sync.Map`: first binding for the key wins. -/
def cacheLookup : List ((Int × Int) × ℚ) → Int × Int → Option ℚ
  | [], _ => none
  | (k, v) :: rest, key => if key = k then some v else cacheLookup rest key

/-- The rejection condition of `GetElevation`:
`lat < eg.minLat || lat > eg.maxLat || lon < eg.minLon || lon > eg.maxLon`. -/
def outsideBounds (eg : ElevationGrid) (lat lon : ℚ) : Prop :=
  lat < eg.minLat ∨ lat > eg.maxLat ∨ lon < eg.minLon ∨ lon > eg.maxLon

instance (eg : ElevationGrid) (lat lon : ℚ) : Decidable (outsideBounds eg lat lon) :=
  inferInstanceAs (Decidable (lat < eg.minLat ∨ lat > eg.maxLat ∨ lon < eg.minLon ∨ lon > eg.maxLon))

/-- Sequential clamping of an index to `[0, n-1]` as written in `GetElevation`:
first `if v < 0 then v = 0`, then `if v >= n then v = n - 1`. -/
def clampIdx (v n : Int) : Int :=
  let v1 := if v < 0 then 0 else v
  if n ≤ v1 then n - 1 else v1

/-- Clamped column computed by `GetElevation`:
`x := int((lon - eg.minLon) * eg.invGridSize)` then clamped to `[0, width-1]`. -/
def cellX (eg : ElevationGrid) (lon : ℚ) : Int :=
  clampIdx (ratTrunc ((lon - eg.minLon) * eg.invGridSize)) eg.width

/-- Clamped row computed by `GetElevation`:
`y := int((lat - eg.minLat) * eg.invGridSize)` then clamped to `[0, height-1]`. -/
def cellY (eg : ElevationGrid) (lat : ℚ) : Int :=
  clampIdx (ratTrunc ((lat - eg.minLat) * eg.invGridSize)) eg.height

/-- Flat array index `index := y*eg.width + x` computed by `GetElevation`. -/
def cellIndex (eg : ElevationGrid) (lat lon : ℚ) : Int :=
  cellY eg lat * eg.width + cellX eg lon

/-- The cell read `elevationCm := eg.grid[index]`, made total with default 0;
the safety theorem for the index shows the default is never consulted on a
well-formed grid. -/
def cellValue (eg : ElevationGrid) (lat lon : ℚ) : Int :=
  eg.grid.getD (cellIndex eg lat lon).toNat 0

/-- Model of `ElevationGrid.GetElevation` (grid.go).  Returns the Go pair
`(float64, error)` as an `Except`, together with the post-state (the cache is
the only mutable part). -/
def getElevation (eg : ElevationGrid) (lat lon : ℚ) :
    Except String ℚ × ElevationGrid :=
  if outsideBounds eg lat lon then
    (Except.error "coordinates out of bounds", eg)
  else
    match cacheLookup eg.hotspotCache (cacheKey lat lon) with
    | some cached => (Except.ok cached, eg)
    | none =>
      if cellValue eg lat lon = -9999 then
        (Except.ok (-9999), eg)
      else
        (Except.ok ((cellValue eg lat lon : ℚ) / 100),
         { eg with hotspotCache :=
            (cacheKey lat lon, (cellValue eg lat lon : ℚ) / 100) :: eg.hotspotCache })

/-- Discriminator for the `error` component of a Go-style return pair. -/
def exOk {α : Type} : Except String α → Bool
  | Except.ok _ => true
  | Except.error _ => false

/-- Projection of the success value of a Go-style return pair. -/
def exVal {α : Type} : Except String α → Option α
  | Except.ok v => some v
  | Except.error _ => none

/-- The synthetic cell rule of `generateTestData` for flat index `i`:
derive the cell's (lat, lon) from row `i / width` and column `i % width`,
plant three fixed landmark regions, otherwise a deterministic base value
`int16(500 + (x*0.01 + y*0.02))`. -/
def genCell (eg : ElevationGrid) (i : Nat) : Int :=
  let y : Int := (i : Int).tdiv eg.width
  let x : Int := (i : Int).tmod eg.width
  let lat : ℚ := eg.minLat + (y : ℚ) * eg.gridSize
  let lon : ℚ := eg.minLon + (x : ℚ) * eg.gridSize
  if 3536 / 100 ≤ lat ∧ lat ≤ 3537 / 100 ∧ 13872 / 100 ≤ lon ∧ lon ≤ 13873 / 100 then
    32767
  else if 3568 / 100 ≤ lat ∧ lat ≤ 3569 / 100 ∧ 13976 / 100 ≤ lon ∧ lon ≤ 13977 / 100 then
    300
  else if 3468 / 100 ≤ lat ∧ lat ≤ 3469 / 100 ∧ 13552 / 100 ≤ lon ∧ lon ≤ 13553 / 100 then
    2000
  else
    500 + ratTrunc ((x : ℚ) * (1 / 100) + (y : ℚ) * (2 / 100))

/-- Model of `generateTestData`: replaces the grid with `width*height`
synthetic cells, all other fields unchanged. -/
def generateTestData (eg : ElevationGrid) : ElevationGrid :=
  { eg with grid := (List.range (eg.width * eg.height).toNat).map (genCell eg) }

/-- Outcome of opening and decoding the header file, abstracting
`os.Open` + `binary.Read` in `loadHeader`: the file is absent, the read
of the fixed 44-byte little-endian record fails, or it decodes to a header. -/
inductive HeaderSrc where
  | absent
  | readErr (msg : String)
  | ok (h : GridHeader)
deriving DecidableEq, Repr

/-- Outcome of `binary.Read` on the data file in `loadData`: the full
`width*height` cell payload, an `io.EOF`/`io.ErrUnexpectedEOF`, or another
read error. -/
inductive DataRead where
  | ok (cells : List Int)
  | eofErr
  | otherErr (msg : String)
deriving DecidableEq, Repr

/-- Outcome of opening the data file in `loadData`: absent, or present with
its `Stat` size and the subsequent read outcome. -/
inductive DataSrc where
  | absent
  | present (size : Int) (read : DataRead)
deriving DecidableEq, Repr

/-- Model of `ElevationGrid.loadHeader`: an absent file substitutes the fixed
default geometry; a failed `binary.Read` is returned as an error; a decoded
header is copied into the grid unvalidated. -/
def loadHeader (eg : ElevationGrid) : HeaderSrc → Except String ElevationGrid
  | HeaderSrc.absent =>
    Except.ok { eg with width := 32000, height := 26000, minLat := 20, maxLat := 46,
                        minLon := 122, maxLon := 154, gridSize := 1 / 1000 }
  | HeaderSrc.readErr msg => Except.error msg
  | HeaderSrc.ok h =>
    Except.ok { eg with width := h.width, height := h.height, minLat := h.minLat,
                        maxLat := h.maxLat, minLon := h.minLon, maxLon := h.maxLon,
                        gridSize := h.gridSize }

/-- Model of `ElevationGrid.loadData`: absent file synthesizes data; a present
file whose size differs from `width*height*2` is a hard error; a truncated
read (`io.EOF`/`io.ErrUnexpectedEOF`) after the size check falls back to the
synthetic data; any other read error is propagated. -/
def loadData (eg : ElevationGrid) : DataSrc → Except String ElevationGrid
  | DataSrc.absent => Except.ok (generateTestData eg)
  | DataSrc.present size r =>
    if size ≠ eg.width * eg.height * 2 then
      Except.error "data file size mismatch"
    else
      match r with
      | DataRead.ok cells => Except.ok { eg with grid := cells }
      | DataRead.eofErr => Except.ok (generateTestData eg)
      | DataRead.otherErr msg => Except.error msg

/-- Model of `ElevationGrid.LoadFromFile`: header, then data, then
`invGridSize = 1.0 / gridSize`; either loader's error aborts construction
with a wrapping message. -/
def loadFromFile (eg : ElevationGrid) (hdr : HeaderSrc) (df : DataSrc) :
    Except String ElevationGrid :=
  match loadHeader eg hdr with
  | Except.error e => Except.error ("failed to load header: " ++ e)
  | Except.ok eg1 =>
    match loadData eg1 df with
    | Except.error e => Except.error ("failed to load data: " ++ e)
    | Except.ok eg2 => Except.ok { eg2 with invGridSize := 1 / eg2.gridSize }

/-- Projection of a successful construction result (used to state concrete
facts about a constructed grid). -/
def loadedGrid (r : Except String ElevationGrid) : ElevationGrid :=
  match r with
  | Except.ok g => g
  | Except.error _ => newElevationGrid

/-- Model of `BatchPoint` (service.go). -/
structure BatchPoint where
  lat : ℚ
  lon : ℚ
deriving DecidableEq, Repr

/-- Model of `ElevationResult` (service.go). -/
structure ElevationResult where
  lat : ℚ
  lon : ℚ
  elevation : ℚ
deriving DecidableEq, Repr

/-- Body of the loop of `GetBatchElevations` for one point: a per-point error
is absorbed as the value `-9999`, a success keeps its value; the grid state
(cache) is threaded through either way. -/
def batchStep (eg : ElevationGrid) (p : BatchPoint) : ℚ × ElevationGrid :=
  match getElevation eg p.lat p.lon with
  | (Except.error _, eg1) => (-9999, eg1)
  | (Except.ok v, eg1) => (v, eg1)

/-- The sequential loop of `ElevationGrid.GetBatchElevations` over the input
points, producing one value per point in order. -/
def gridBatchAux (eg : ElevationGrid) : List BatchPoint → List ℚ × ElevationGrid
  | [] => ([], eg)
  | p :: ps =>
    let step := batchStep eg p
    let rest := gridBatchAux step.2 ps
    (step.1 :: rest.1, rest.2)

/-- Model of `ElevationGrid.GetBatchElevations`: runs the loop and returns
`(results, nil)` - its single return site carries a nil error. -/
def gridGetBatchElevations (eg : ElevationGrid) (pts : List BatchPoint) :
    Except String (List ℚ) × ElevationGrid :=
  (Except.ok (gridBatchAux eg pts).1, (gridBatchAux eg pts).2)

/-- The uint64 modulus: `2 ^ 64 = 18446744073709551616`. -/
def U64 : Nat := 18446744073709551616

/-- Model of `Service` (service.go): the owned grid and the uint64 request
counter.  `startTime` and the wall clock are not modelled. -/
structure Service where
  grid : ElevationGrid
  requests : Nat
deriving DecidableEq, Repr

/-- Model of `Service.GetElevation`: increment the request counter (uint64
arithmetic), then delegate to the grid. -/
def serviceGetElevation (s : Service) (lat lon : ℚ) :
    Except String ℚ × Service :=
  let s1 : Service := { s with requests := (s.requests + 1) % U64 }
  let r := getElevation s1.grid lat lon
  (r.1, { s1 with grid := r.2 })

/-- Model of `Service.GetBatchElevations`: bump the counter by the batch size,
delegate to the grid, and zip each original point with its elevation into an
`ElevationResult`. -/
def serviceGetBatchElevations (s : Service) (points : List BatchPoint) :
    Except String (List ElevationResult) × Service :=
  let s1 : Service := { s with requests := (s.requests + points.length) % U64 }
  match gridGetBatchElevations s1.grid points with
  | (Except.error e, g) => (Except.error e, { s1 with grid := g })
  | (Except.ok elevs, g) =>
    (Except.ok ((points.zip elevs).map fun pe =>
        { lat := pe.1.lat, lon := pe.1.lon, elevation := pe.2 }),
     { s1 with grid := g })

/-- Model of `HealthStatus`, restricted to the deterministic fields; memory,
goroutine count and uptime are environment reads outside the model. -/
structure HealthStatus where
  status : String
  totalRequests : Nat
deriving DecidableEq, Repr

/-- Model of `Service.GetHealth`: status is unconditionally "ok" and the
counter is reported as is. -/
def getHealth (s : Service) : HealthStatus :=
  { status := "ok", totalRequests := s.requests }

/-- N successive `Service.GetElevation` calls at the given coordinates. -/
def serviceCalls (s : Service) (pts : List (ℚ × ℚ)) : Service :=
  pts.foldl (fun acc p => (serviceGetElevation acc p.1 p.2).2) s

/-- The geometry invariant claimed for every successfully constructed grid. -/
def geomInvariant (eg : ElevationGrid) : Prop :=
  0 < eg.width ∧ 0 < eg.height ∧ eg.minLat < eg.maxLat ∧
    eg.minLon < eg.maxLon ∧ 0 < eg.gridSize

instance (eg : ElevationGrid) : Decidable (geomInvariant eg) :=
  inferInstanceAs (Decidable (0 < eg.width ∧ 0 < eg.height ∧ eg.minLat < eg.maxLat ∧
    eg.minLon < eg.maxLon ∧ 0 < eg.gridSize))

/-- The geometry invariant read off a decoded header record. -/
def headerGeomOk (h : GridHeader) : Prop :=
  0 < h.width ∧ 0 < h.height ∧ h.minLat < h.maxLat ∧
    h.minLon < h.maxLon ∧ 0 < h.gridSize

instance (h : GridHeader) : Decidable (headerGeomOk h) :=
  inferInstanceAs (Decidable (0 < h.width ∧ 0 < h.height ∧ h.minLat < h.maxLat ∧
    h.minLon < h.maxLon ∧ 0 < h.gridSize))

/-- Elementwise specification of a batch result list against the sequential
per-point evaluation: each result echoes its point's coordinates and carries
the value produced by `batchStep` in the threaded grid state. -/
def correctBatch : ElevationGrid → List BatchPoint → List ElevationResult → Prop
  | _, [], [] => True
  | g, p :: ps, r :: rs =>
    r.lat = p.lat ∧ r.lon = p.lon ∧ r.elevation = (batchStep g p).1 ∧
      correctBatch (batchStep g p).2 ps rs
  | _, _ :: _, [] => False
  | _, [], _ :: _ => False

/-- Concrete 1x1 grid as produced by a successful construction with header
`(1, 1, 0, 1, 0, 1, 1)` and no data file (synthetic cell value 500). -/
def egUnit : ElevationGrid :=
  { grid := [500], width := 1, height := 1, minLat := 0, maxLat := 1,
    minLon := 0, maxLon := 1, gridSize := 1, invGridSize := 1, hotspotCache := [] }

/-- Variant of `egUnit` whose cache already holds the key of `(0, 0)`. -/
def egUnitCached : ElevationGrid :=
  { egUnit with hotspotCache := [((0, 0), 7)] }

/-- Concrete 1x1 grid whose only cell is the no-data sentinel. -/
def egSentinel : ElevationGrid :=
  { grid := [-9999], width := 1, height := 1, minLat := 0, maxLat := 1,
    minLon := 0, maxLon := 1, gridSize := 1, invGridSize := 1, hotspotCache := [] }

theorem getElevation_oob {eg : ElevationGrid} {lat lon : ℚ}
    (h : outsideBounds eg lat lon) :
    getElevation eg lat lon = (Except.error "coordinates out of bounds", eg) := by
  simp [getElevation, h]

theorem getElevation_hitLookup {eg : ElevationGrid} {lat lon v : ℚ}
    (h : ¬ outsideBounds eg lat lon)
    (hc : cacheLookup eg.hotspotCache (cacheKey lat lon) = some v) :
    getElevation eg lat lon = (Except.ok v, eg) := by
  simp [getElevation, h, hc]

theorem getElevation_noData {eg : ElevationGrid} {lat lon : ℚ}
    (h : ¬ outsideBounds eg lat lon)
    (hc : cacheLookup eg.hotspotCache (cacheKey lat lon) = none)
    (hs : cellValue eg lat lon = -9999) :
    getElevation eg lat lon = (Except.ok (-9999), eg) := by
  simp [getElevation, h, hc, hs]

theorem getElevation_missStore {eg : ElevationGrid} {lat lon : ℚ}
    (h : ¬ outsideBounds eg lat lon)
    (hc : cacheLookup eg.hotspotCache (cacheKey lat lon) = none)
    (hs : cellValue eg lat lon ≠ -9999) :
    getElevation eg lat lon =
      (Except.ok ((cellValue eg lat lon : ℚ) / 100),
       { eg with hotspotCache :=
          (cacheKey lat lon, (cellValue eg lat lon : ℚ) / 100) :: eg.hotspotCache }) := by
  simp [getElevation, h, hc, hs]

theorem inBounds_ok {eg : ElevationGrid} {lat lon : ℚ}
    (h : ¬ outsideBounds eg lat lon) :
    exOk (getElevation eg lat lon).1 = true := by
  cases hc : cacheLookup eg.hotspotCache (cacheKey lat lon) with
  | none =>
    by_cases hs : cellValue eg lat lon = -9999
    · rw [getElevation_noData h hc hs]; rfl
    · rw [getElevation_missStore h hc hs]; rfl
  | some v => rw [getElevation_hitLookup h hc]; rfl

/-- C1: `GetElevation` fails with the out-of-bounds error exactly when `lat`
lies outside `[minLat, maxLat]` or `lon` lies outside `[minLon, maxLon]`;
coordinates exactly on the bounds (corners included) are accepted, not
rejected. -/
theorem getElevation_bounds_check (eg : ElevationGrid) (lat lon : ℚ) :
    ((getElevation eg lat lon).1 = Except.error "coordinates out of bounds" ↔
      outsideBounds eg lat lon) ∧
    (eg.minLat ≤ eg.maxLat → eg.minLon ≤ eg.maxLon →
      (lat = eg.minLat ∨ lat = eg.maxLat) → (lon = eg.minLon ∨ lon = eg.maxLon) →
      exOk (getElevation eg lat lon).1 = true) := by
  constructor
  · constructor
    · intro herr
      by_contra h
      have hok := inBounds_ok h
      rw [herr] at hok
      simp [exOk] at hok
    · intro h
      rw [getElevation_oob h]
  · intro h1 h2 hlat hlon
    apply inBounds_ok
    intro hob
    rcases hlat with rfl | rfl <;> rcases hlon with rfl | rfl <;>
      rcases hob with h | h | h | h <;> first | exact lt_irrefl _ h | linarith

/-- C1 witness: the corner `(minLat, maxLon)` of a concrete constructed grid
is accepted. -/
theorem getElevation_bounds_check_witness :
    exOk (getElevation egUnit 0 1).1 = true :=
  (getElevation_bounds_check egUnit 0 1).2 (by norm_num [egUnit]) (by norm_num [egUnit])
    (Or.inl (by norm_num [egUnit])) (Or.inr (by norm_num [egUnit]))

/-- C6: calling `GetElevation` twice with identical coordinates returns the
identical value both times - the cache-hit path reproduces the cold path's
converted value exactly. -/
theorem getElevation_idempotent (eg : ElevationGrid) (lat lon : ℚ) :
    (getElevation ((getElevation eg lat lon).2) lat lon).1 =
      (getElevation eg lat lon).1 := by
  by_cases h : outsideBounds eg lat lon
  · simp [getElevation_oob h]
  · cases hc : cacheLookup eg.hotspotCache (cacheKey lat lon) with
    | none =>
      by_cases hs : cellValue eg lat lon = -9999
      · simp [getElevation_noData h hc hs]
      · rw [getElevation_missStore h hc hs]
        have h2 : ¬ outsideBounds
            { eg with hotspotCache :=
                (cacheKey lat lon, (cellValue eg lat lon : ℚ) / 100) :: eg.hotspotCache }
            lat lon := by
          simpa [outsideBounds] using h
        have hc2 : cacheLookup
            ({ eg with hotspotCache :=
                (cacheKey lat lon, (cellValue eg lat lon : ℚ) / 100) :: eg.hotspotCache
             } : ElevationGrid).hotspotCache (cacheKey lat lon) =
              some ((cellValue eg lat lon : ℚ) / 100) := by
          simp [cacheLookup]
        rw [getElevation_hitLookup h2 hc2]
    | some v => simp [getElevation_hitLookup h hc]

/-- C5: on a cache miss with a non-sentinel cell, `GetElevation` returns the
cell converted from centimeters to meters and stores it under the key built
from the coordinates rounded to 4 decimals; on a hit it returns the cached
value with no state change; consequently, once a coordinate has been cached,
any in-bounds coordinate with the same rounded key returns the identical
cached answer. -/
theorem getElevation_cache_semantics :
    (∀ (eg : ElevationGrid) (lat lon : ℚ), ¬ outsideBounds eg lat lon →
      cacheLookup eg.hotspotCache (cacheKey lat lon) = none →
      cellValue eg lat lon ≠ -9999 →
      getElevation eg lat lon =
        (Except.ok ((cellValue eg lat lon : ℚ) / 100),
         { eg with hotspotCache :=
            (cacheKey lat lon, (cellValue eg lat lon : ℚ) / 100) :: eg.hotspotCache })) ∧
    (∀ (eg : ElevationGrid) (lat lon v : ℚ), ¬ outsideBounds eg lat lon →
      cacheLookup eg.hotspotCache (cacheKey lat lon) = some v →
      getElevation eg lat lon = (Except.ok v, eg)) ∧
    (∀ (eg : ElevationGrid) (lat1 lon1 lat2 lon2 : ℚ),
      ¬ outsideBounds eg lat1 lon1 → ¬ outsideBounds eg lat2 lon2 →
      cacheKey lat1 lon1 = cacheKey lat2 lon2 →
      cacheLookup eg.hotspotCache (cacheKey lat1 lon1) = none →
      cellValue eg lat1 lon1 ≠ -9999 →
      (getElevation ((getElevation eg lat1 lon1).2) lat2 lon2).1 =
        (getElevation eg lat1 lon1).1) := by
  refine ⟨fun eg lat lon h hc hs => getElevation_missStore h hc hs,
          fun eg lat lon v h hc => getElevation_hitLookup h hc, ?_⟩
  intro eg lat1 lon1 lat2 lon2 h1 h2 hk hc hs
  rw [getElevation_missStore h1 hc hs]
  have h2' : ¬ outsideBounds
      { eg with hotspotCache :=
          (cacheKey lat1 lon1, (cellValue eg lat1 lon1 : ℚ) / 100) :: eg.hotspotCache }
      lat2 lon2 := by
    simpa [outsideBounds] using h2
  have hc2 : cacheLookup
      ({ eg with hotspotCache :=
          (cacheKey lat1 lon1, (cellValue eg lat1 lon1 : ℚ) / 100) :: eg.hotspotCache
       } : ElevationGrid).hotspotCache (cacheKey lat2 lon2) =
        some ((cellValue eg lat1 lon1 : ℚ) / 100) := by
    simp [cacheLookup, hk.symm]
  rw [getElevation_hitLookup h2' hc2]

/-- C5 witness: the miss path on a concrete grid stores and converts, and the
hit path on a concrete pre-seeded cache returns the seeded value. -/
theorem getElevation_cache_semantics_witness :
    getElevation egUnit 0 0 =
      (Except.ok ((cellValue egUnit 0 0 : ℚ) / 100),
       { egUnit with hotspotCache :=
          (cacheKey 0 0, (cellValue egUnit 0 0 : ℚ) / 100) :: egUnit.hotspotCache }) ∧
    getElevation egUnitCached 0 0 = (Except.ok 7, egUnitCached) :=
  ⟨getElevation_cache_semantics.1 egUnit 0 0 (by norm_num [outsideBounds, egUnit])
     (by simp [egUnit, cacheLookup])
     (by norm_num [cellValue, cellIndex, cellX, cellY, clampIdx, ratTrunc, egUnit, List.getD]),
   getElevation_cache_semantics.2.1 egUnitCached 0 0 7
     (by norm_num [outsideBounds, egUnitCached, egUnit])
     (by norm_num [egUnitCached, egUnit, cacheLookup, cacheKey, round4])⟩

/-- Concrete 2x1 grid with a fine `gridSize` of `1/100000`: cell 0 holds 100,
cell 1 holds the sentinel.  Reachable by construction from a present header
and data file (shown in the counterexample below). -/
def sentinelGrid : ElevationGrid :=
  { grid := [100, -9999], width := 2, height := 1, minLat := 0, maxLat := 1,
    minLon := 0, maxLon := 1, gridSize := 1 / 100000, invGridSize := 100000,
    hotspotCache := [] }

/-- State of `sentinelGrid` after one lookup at `(0, 0.000004)` cached that
coordinate's value 1 under the rounded key `(0, 0)`. -/
def sentinelGrid1 : ElevationGrid :=
  { sentinelGrid with hotspotCache := [((0, 0), 1)] }

/-- C2 (amended): on a cache miss - no entry yet under the coordinate's
rounded key - an in-bounds coordinate whose resolved cell holds the sentinel
`-9999` makes `GetElevation` return `-9999` unconverted with no error and
leave the cache untouched, so an immediately repeated call recomputes and
returns the same sentinel. -/
theorem getElevation_sentinel_uncached :
    ∀ (eg : ElevationGrid) (lat lon : ℚ), ¬ outsideBounds eg lat lon →
      cacheLookup eg.hotspotCache (cacheKey lat lon) = none →
      cellValue eg lat lon = -9999 →
      getElevation eg lat lon = (Except.ok (-9999), eg) ∧
      getElevation ((getElevation eg lat lon).2) lat lon = (Except.ok (-9999), eg) := by
  intro eg lat lon h hc hs
  have e := getElevation_noData h hc hs
  exact ⟨e, by rw [e]; exact e⟩

/-- C2 witness: a concrete sentinel cell is returned unconverted twice with
the cache left empty. -/
theorem getElevation_sentinel_uncached_witness :
    getElevation egSentinel 0 0 = (Except.ok (-9999), egSentinel) ∧
    getElevation ((getElevation egSentinel 0 0).2) 0 0 = (Except.ok (-9999), egSentinel) :=
  getElevation_sentinel_uncached egSentinel 0 0 (by norm_num [outsideBounds, egSentinel])
    (by simp [egSentinel, cacheLookup])
    (by norm_num [cellValue, cellIndex, cellX, cellY, clampIdx, ratTrunc, egSentinel, List.getD])

/-- C2 counterexample: in a reachable state whose cache already holds the
rounded key `(0, 0)` (populated by the nearby coordinate `lon = 0.000004`
whose cell is 100), the in-bounds coordinate `lon = 0.000012` resolves to the
sentinel cell, yet `GetElevation` returns the cached 1, not `-9999`: the
claim's unrestricted statement fails when the 4-decimal key is already
cached. -/
theorem getElevation_sentinel_cex :
    loadFromFile newElevationGrid (HeaderSrc.ok ⟨2, 1, 0, 1, 0, 1, 1 / 100000⟩)
        (DataSrc.present 4 (DataRead.ok [100, -9999])) = Except.ok sentinelGrid ∧
    getElevation sentinelGrid 0 (4 / 1000000) = (Except.ok 1, sentinelGrid1) ∧
    cellValue sentinelGrid1 0 (12 / 1000000) = -9999 ∧
    getElevation sentinelGrid1 0 (12 / 1000000) = (Except.ok 1, sentinelGrid1) ∧
    decide ((1 : ℚ) = -9999) = false := by
  have hkey1 : cacheKey 0 (4 / 1000000) = (0, 0) := by
    norm_num [cacheKey, round4]
  have hkey2 : cacheKey 0 (12 / 1000000) = (0, 0) := by
    norm_num [cacheKey, round4]
  refine ⟨?_, ?_, ?_, ?_, by norm_num⟩
  · norm_num [loadFromFile, loadHeader, loadData, newElevationGrid, sentinelGrid]
  · have h1 : ¬ outsideBounds sentinelGrid 0 (4 / 1000000) := by
      norm_num [outsideBounds, sentinelGrid]
    have hc1 : cacheLookup sentinelGrid.hotspotCache (cacheKey 0 (4 / 1000000)) = none := by
      simp [sentinelGrid, cacheLookup]
    have hv1 : cellValue sentinelGrid 0 (4 / 1000000) = 100 := by
      norm_num [cellValue, cellIndex, cellX, cellY, clampIdx, ratTrunc, sentinelGrid, List.getD]
    rw [getElevation_missStore h1 hc1 (by rw [hv1]; norm_num)]
    rw [hv1, hkey1]
    norm_num [sentinelGrid1, sentinelGrid]
  · norm_num [cellValue, cellIndex, cellX, cellY, clampIdx, ratTrunc, sentinelGrid1,
      sentinelGrid, List.getD]
  · have h2 : ¬ outsideBounds sentinelGrid1 0 (12 / 1000000) := by
      norm_num [outsideBounds, sentinelGrid1, sentinelGrid]
    have hc2 : cacheLookup sentinelGrid1.hotspotCache (cacheKey 0 (12 / 1000000)) = some 1 := by
      rw [hkey2]
      simp [sentinelGrid1, sentinelGrid, cacheLookup]
    exact getElevation_hitLookup h2 hc2

/-- C3: with the data file present, a size different from `width*height*2`
is a hard construction error; a size-correct file whose read ends in an
unexpected end of input falls back to the synthetic generator and
construction succeeds, as it does when the data file is absent. -/
theorem loadData_fallback_policy :
    (∀ (eg : ElevationGrid) (size : Int) (r : DataRead),
      size ≠ eg.width * eg.height * 2 →
      loadData eg (DataSrc.present size r) = Except.error "data file size mismatch") ∧
    (∀ eg : ElevationGrid,
      loadData eg (DataSrc.present (eg.width * eg.height * 2) DataRead.eofErr) =
        Except.ok (generateTestData eg)) ∧
    (∀ eg : ElevationGrid, loadData eg DataSrc.absent = Except.ok (generateTestData eg)) ∧
    (∀ (eg : ElevationGrid) (h : GridHeader) (size : Int) (r : DataRead),
      size ≠ h.width * h.height * 2 →
      exOk (loadFromFile eg (HeaderSrc.ok h) (DataSrc.present size r)) = false) ∧
    (∀ (eg : ElevationGrid) (h : GridHeader),
      exOk (loadFromFile eg (HeaderSrc.ok h)
        (DataSrc.present (h.width * h.height * 2) DataRead.eofErr)) = true) := by
  refine ⟨?_, ?_, ?_, ?_, ?_⟩
  · intro eg size r h
    simp [loadData, h]
  · intro eg
    simp [loadData]
  · intro eg
    rfl
  · intro eg h size r hs
    simp [loadFromFile, loadHeader, loadData, hs, exOk]
  · intro eg h
    simp [loadFromFile, loadHeader, loadData, exOk]

/-- C3 witness: a concrete wrong-size data file is rejected both at the data
loader and by whole construction. -/
theorem loadData_fallback_policy_witness :
    loadData newElevationGrid (DataSrc.present 4 (DataRead.ok [])) =
      Except.error "data file size mismatch" ∧
    exOk (loadFromFile newElevationGrid (HeaderSrc.ok ⟨2, 1, 0, 1, 0, 1, 1⟩)
      (DataSrc.present 5 DataRead.eofErr)) = false :=
  ⟨loadData_fallback_policy.1 newElevationGrid 4 (DataRead.ok [])
     (by norm_num [newElevationGrid]),
   loadData_fallback_policy.2.2.2.1 newElevationGrid ⟨2, 1, 0, 1, 0, 1, 1⟩ 5
     DataRead.eofErr (by norm_num)⟩

/-- C9: an absent header file substitutes exactly the fixed default geometry
(32000 x 26000 cells over [20,46] x [122,154] at gridSize 0.001) and
construction proceeds, while a header file that fails to parse aborts
construction with an error. -/
theorem loadHeader_defaults :
    (∀ eg : ElevationGrid,
      loadHeader eg HeaderSrc.absent =
        Except.ok { eg with width := 32000, height := 26000, minLat := 20, maxLat := 46,
                            minLon := 122, maxLon := 154, gridSize := 1 / 1000 }) ∧
    (∀ (eg : ElevationGrid) (msg : String),
      exOk (loadHeader eg (HeaderSrc.readErr msg)) = false) ∧
    (∀ (eg : ElevationGrid) (msg : String) (df : DataSrc),
      exOk (loadFromFile eg (HeaderSrc.readErr msg) df) = false) :=
  ⟨fun _ => rfl, fun _ _ => rfl, fun _ _ _ => rfl⟩

/-- Header record with `width = 0`, violating the claimed geometry invariant. -/
def degenerateHeader : GridHeader := ⟨0, 5, 0, 1, 0, 1, 1⟩

/-- Concrete well-formed 1x1 header used by witnesses. -/
def hdrW : GridHeader := ⟨1, 1, 0, 1, 0, 1, 1⟩

theorem loadData_preserves_geom {eg : ElevationGrid} {df : DataSrc} {eg' : ElevationGrid}
    (h : loadData eg df = Except.ok eg') :
    eg'.width = eg.width ∧ eg'.height = eg.height ∧ eg'.minLat = eg.minLat ∧
    eg'.maxLat = eg.maxLat ∧ eg'.minLon = eg.minLon ∧ eg'.maxLon = eg.maxLon ∧
    eg'.gridSize = eg.gridSize := by
  cases df with
  | absent =>
    simp only [loadData, Except.ok.injEq] at h
    subst h
    simp [generateTestData]
  | present size r =>
    simp only [loadData] at h
    split at h
    · exact absurd h (by simp)
    · cases r with
      | ok cells =>
        simp only [Except.ok.injEq] at h
        subst h
        simp
      | eofErr =>
        simp only [Except.ok.injEq] at h
        subst h
        simp [generateTestData]
      | otherErr msg => exact absurd h (by simp)

theorem loadFromFile_geom {eg eg1 : ElevationGrid} {hdr : HeaderSrc} {df : DataSrc}
    (hh : loadHeader eg hdr = Except.ok eg1)
    (hok : exOk (loadFromFile eg hdr df) = true) :
    (loadedGrid (loadFromFile eg hdr df)).width = eg1.width ∧
    (loadedGrid (loadFromFile eg hdr df)).height = eg1.height ∧
    (loadedGrid (loadFromFile eg hdr df)).minLat = eg1.minLat ∧
    (loadedGrid (loadFromFile eg hdr df)).maxLat = eg1.maxLat ∧
    (loadedGrid (loadFromFile eg hdr df)).minLon = eg1.minLon ∧
    (loadedGrid (loadFromFile eg hdr df)).maxLon = eg1.maxLon ∧
    (loadedGrid (loadFromFile eg hdr df)).gridSize = eg1.gridSize := by
  simp only [loadFromFile, hh] at hok ⊢
  cases hld : loadData eg1 df with
  | error e =>
    rw [hld] at hok
    simp [exOk] at hok
  | ok eg2 =>
    have hg := loadData_preserves_geom hld
    simpa [loadedGrid] using hg

/-- C8 counterexample: a header with `width = 0` is copied unvalidated, the
absent data file synthesizes an empty grid, and construction succeeds - so a
successfully constructed store can violate the claimed geometry invariant. -/
theorem geomInvariant_cex :
    exOk (loadFromFile newElevationGrid (HeaderSrc.ok degenerateHeader) DataSrc.absent) = true ∧
    (loadedGrid (loadFromFile newElevationGrid (HeaderSrc.ok degenerateHeader)
      DataSrc.absent)).width = 0 ∧
    decide (geomInvariant (loadedGrid (loadFromFile newElevationGrid
      (HeaderSrc.ok degenerateHeader) DataSrc.absent))) = false := by
  refine ⟨?_, ?_, ?_⟩
  · rfl
  · rfl
  · rw [decide_eq_false_iff_not]
    intro hinv
    have hw := hinv.1
    norm_num [loadedGrid, loadFromFile, loadHeader, loadData, generateTestData,
      newElevationGrid, degenerateHeader] at hw
  
/-- C8 (amended): a grid constructed with the header file absent always
satisfies the geometry invariant; with a parsed header the invariant holds
exactly when the header's own values satisfy it - the loader copies them
without validation. -/
theorem geomInvariant_of_load :
    (∀ (eg : ElevationGrid) (df : DataSrc),
      exOk (loadFromFile eg HeaderSrc.absent df) = true →
      geomInvariant (loadedGrid (loadFromFile eg HeaderSrc.absent df))) ∧
    (∀ (eg : ElevationGrid) (h : GridHeader) (df : DataSrc),
      headerGeomOk h →
      exOk (loadFromFile eg (HeaderSrc.ok h) df) = true →
      geomInvariant (loadedGrid (loadFromFile eg (HeaderSrc.ok h) df))) := by
  constructor
  · intro eg df hok
    have hh : loadHeader eg HeaderSrc.absent =
        Except.ok { eg with width := 32000, height := 26000, minLat := 20, maxLat := 46,
                            minLon := 122, maxLon := 154, gridSize := 1 / 1000 } := rfl
    obtain ⟨w, hgt, la1, la2, lo1, lo2, gs⟩ := loadFromFile_geom hh hok
    refine ⟨by rw [w]; norm_num, by rw [hgt]; norm_num, by rw [la1, la2]; norm_num,
            by rw [lo1, lo2]; norm_num, by rw [gs]; norm_num⟩
  · intro eg h df hgeom hok
    have hh : loadHeader eg (HeaderSrc.ok h) =
        Except.ok { eg with width := h.width, height := h.height, minLat := h.minLat,
                            maxLat := h.maxLat, minLon := h.minLon, maxLon := h.maxLon,
                            gridSize := h.gridSize } := rfl
    obtain ⟨w, hgt, la1, la2, lo1, lo2, gs⟩ := loadFromFile_geom hh hok
    obtain ⟨h1, h2, h3, h4, h5⟩ := hgeom
    exact ⟨by rw [w]; exact h1, by rw [hgt]; exact h2, by rw [la1, la2]; exact h3,
           by rw [lo1, lo2]; exact h4, by rw [gs]; exact h5⟩

/-- C8 witness: construction from a concrete well-formed 1x1 header and a
size-correct data file yields a grid satisfying the invariant. -/
theorem geomInvariant_of_load_witness :
    headerGeomOk hdrW ∧
    geomInvariant (loadedGrid (loadFromFile newElevationGrid (HeaderSrc.ok hdrW)
      (DataSrc.present 2 (DataRead.ok [5])))) :=
  ⟨by norm_num [headerGeomOk, hdrW],
   geomInvariant_of_load.2 newElevationGrid hdrW (DataSrc.present 2 (DataRead.ok [5]))
     (by norm_num [headerGeomOk, hdrW])
     (by norm_num [loadFromFile, loadHeader, loadData, exOk, newElevationGrid, hdrW])⟩

/-- C10: after the sequential clamping, the column lies in `[0, width)` and
the row in `[0, height)` for any pre-clamp integers whatsoever (including
whatever Go's implementation-defined float-to-int conversion yields for NaN),
so the flat index `y*width + x` computed on a cache miss is always inside a
`width*height`-cell array when `width, height > 0`. -/
theorem cellIndex_in_range :
    (∀ v n : Int, 0 < n → 0 ≤ clampIdx v n ∧ clampIdx v n < n) ∧
    (∀ (eg : ElevationGrid) (lat lon : ℚ), 0 < eg.width → 0 < eg.height →
      0 ≤ cellIndex eg lat lon ∧ cellIndex eg lat lon < eg.width * eg.height ∧
      ((eg.grid.length : Int) = eg.width * eg.height →
        (cellIndex eg lat lon).toNat < eg.grid.length)) := by
  have hcl : ∀ v n : Int, 0 < n → 0 ≤ clampIdx v n ∧ clampIdx v n < n := by
    intro v n hn
    simp only [clampIdx]
    split_ifs <;> omega
  refine ⟨hcl, ?_⟩
  intro eg lat lon hw hh
  have hx := hcl (ratTrunc ((lon - eg.minLon) * eg.invGridSize)) eg.width hw
  have hy := hcl (ratTrunc ((lat - eg.minLat) * eg.invGridSize)) eg.height hh
  rw [cellIndex, cellX, cellY]
  set x := clampIdx (ratTrunc ((lon - eg.minLon) * eg.invGridSize)) eg.width with hxdef
  set y := clampIdx (ratTrunc ((lat - eg.minLat) * eg.invGridSize)) eg.height with hydef
  have h0 : 0 ≤ y * eg.width + x := add_nonneg (mul_nonneg hy.1 hw.le) hx.1
  have h1 : y * eg.width + x < eg.width * eg.height := by
    have h2 : y + 1 ≤ eg.height := hy.2
    have h3 : (y + 1) * eg.width ≤ eg.height * eg.width :=
      mul_le_mul_of_nonneg_right h2 hw.le
    have h4 : y * eg.width + x < (y + 1) * eg.width := by
      have := hx.2
      nlinarith
    calc y * eg.width + x < (y + 1) * eg.width := h4
      _ ≤ eg.height * eg.width := h3
      _ = eg.width * eg.height := mul_comm _ _
  refine ⟨h0, h1, fun hlen => ?_⟩
  rw [← hlen] at h1
  omega

/-- C10 witness: a negative pre-clamp value is clamped into range, and the
index of a concrete in-bounds lookup stays inside the backing list. -/
theorem cellIndex_in_range_witness :
    (0 ≤ clampIdx (-5) 3 ∧ clampIdx (-5) 3 < 3) ∧
    (cellIndex egUnit 0 0).toNat < egUnit.grid.length :=
  ⟨cellIndex_in_range.1 (-5) 3 (by norm_num),
   (cellIndex_in_range.2 egUnit 0 0 (by norm_num [egUnit])
     (by norm_num [egUnit])).2.2 (by norm_num [egUnit])⟩

theorem gridBatchAux_correct (pts : List BatchPoint) : ∀ g : ElevationGrid,
    (gridBatchAux g pts).1.length = pts.length ∧
    correctBatch g pts ((pts.zip (gridBatchAux g pts).1).map
      (fun pe => { lat := pe.1.lat, lon := pe.1.lon, elevation := pe.2 })) := by
  induction pts with
  | nil =>
    intro g
    simp [gridBatchAux, correctBatch]
  | cons p ps ih =>
    intro g
    obtain ⟨ihl, ihc⟩ := ih (batchStep g p).2
    constructor
    · simp [gridBatchAux, ihl]
    · simp only [gridBatchAux, List.zip_cons_cons, List.map_cons, correctBatch]
      exact ⟨trivial, trivial, trivial, ihc⟩

/-- C4: `Service.GetBatchElevations` on N points never fails as a whole: it
returns exactly N results in input order, each echoing its original (lat,
lon), with each elevation produced by the sequential per-point lookup whose
errors are absorbed as `-9999` (a per-point value is either that grid answer
or the `-9999` stand-in for a failed point). -/
theorem serviceGetBatchElevations_shape (s : Service) (points : List BatchPoint) :
    ∃ (rs : List ElevationResult) (s' : Service),
      serviceGetBatchElevations s points = (Except.ok rs, s') ∧
      rs.length = points.length ∧
      correctBatch s.grid points rs ∧
      ∀ (g : ElevationGrid) (p : BatchPoint),
        (batchStep g p).1 = -9999 ∨
        (getElevation g p.lat p.lon).1 = Except.ok ((batchStep g p).1) := by
  refine ⟨_, _, rfl, ?_, ?_, ?_⟩
  · simp [List.length_zip, (gridBatchAux_correct points s.grid).1]
  · exact (gridBatchAux_correct points s.grid).2
  · intro g p
    rcases hge : getElevation g p.lat p.lon with ⟨r, g1⟩
    cases r with
    | error e => exact Or.inl (by simp [batchStep, hge])
    | ok v => exact Or.inr (by simp [batchStep, hge])

/-- Service whose uint64 request counter sits at its maximum value
`2^64 - 1`; reachable in the model after that many requests. -/
def svcMax : Service := { grid := egUnit, requests := 18446744073709551615 }

/-- Concrete service with a small request count, used by witnesses. -/
def svcW : Service := { grid := egUnit, requests := 3 }

/-- C7 counterexample: with the uint64 counter at `2^64 - 1`, one more
`GetElevation` call wraps it to 0, so the health snapshot after the call is
not the prior value plus 1 and the counter has strictly decreased. -/
theorem requestCounter_wrap_cex :
    (getHealth svcMax).totalRequests = 18446744073709551615 ∧
    (getHealth (serviceGetElevation svcMax 0 0).2).totalRequests = 0 ∧
    decide ((getHealth (serviceGetElevation svcMax 0 0).2).totalRequests =
      (getHealth svcMax).totalRequests + 1) = false ∧
    (getHealth (serviceGetElevation svcMax 0 0).2).totalRequests <
      (getHealth svcMax).totalRequests := by
  refine ⟨rfl, rfl, by decide, by decide⟩

/-- C7 (amended): `GetElevation` bumps the counter by exactly 1 and
`GetBatchElevations` by the batch size, both in uint64 (mod `2^64`)
arithmetic; after N further single lookups the reported `total_requests` is
the prior value plus N mod `2^64`, hence non-decreasing whenever the counter
does not wrap. -/
theorem requestCounter_increments :
    (∀ (s : Service) (lat lon : ℚ),
      (serviceGetElevation s lat lon).2.requests = (s.requests + 1) % U64) ∧
    (∀ (s : Service) (points : List BatchPoint),
      (serviceGetBatchElevations s points).2.requests =
        (s.requests + points.length) % U64) ∧
    (∀ (s : Service) (pts : List (ℚ × ℚ)), s.requests < U64 →
      (getHealth (serviceCalls s pts)).totalRequests = (s.requests + pts.length) % U64) ∧
    (∀ (s : Service) (pts : List (ℚ × ℚ)), s.requests + pts.length < U64 →
      s.requests ≤ (getHealth (serviceCalls s pts)).totalRequests) := by
  have hU : 0 < U64 := by norm_num [U64]
  have key : ∀ (pts : List (ℚ × ℚ)) (s : Service), s.requests < U64 →
      (serviceCalls s pts).requests = (s.requests + pts.length) % U64 := by
    intro pts
    induction pts with
    | nil =>
      intro s hs
      simp [serviceCalls, Nat.mod_eq_of_lt hs]
    | cons p ps ih =>
      intro s hs
      have h1 : (serviceGetElevation s p.1 p.2).2.requests < U64 := Nat.mod_lt _ hU
      have ih' := ih ((serviceGetElevation s p.1 p.2).2) h1
      simp only [serviceCalls, List.foldl_cons] at ih' ⊢
      rw [ih']
      show ((s.requests + 1) % U64 + ps.length) % U64 = (s.requests + (ps.length + 1)) % U64
      simp only [U64]
      omega
  refine ⟨fun s lat lon => rfl, fun s points => rfl, fun s pts hs => key pts s hs, ?_⟩
  intro s pts h
  have hs : s.requests < U64 := lt_of_le_of_lt (Nat.le_add_right _ _) h
  have := key pts s hs
  show s.requests ≤ (serviceCalls s pts).requests
  rw [this, Nat.mod_eq_of_lt h]
  exact Nat.le_add_right _ _

/-- C7 witness: two successive single lookups on a concrete service raise the
reported `total_requests` from 3 to 5 without wrapping. -/
theorem requestCounter_increments_witness :
    (getHealth (serviceCalls svcW [(0, 0), (5, 5)])).totalRequests =
      (svcW.requests + 2) % U64 ∧
    svcW.requests ≤ (getHealth (serviceCalls svcW [(0, 0), (5, 5)])).totalRequests :=
  ⟨requestCounter_increments.2.2.1 svcW [(0, 0), (5, 5)] (by norm_num [svcW, U64]),
   requestCounter_increments.2.2.2 svcW [(0, 0), (5, 5)] (by norm_num [svcW, U64])⟩

/-- C4 witness: a concrete two-point batch (one in-bounds point, one
out-of-bounds point) instantiates the batch shape theorem. -/
theorem serviceGetBatchElevations_shape_witness :
    ∃ (rs : List ElevationResult) (s' : Service),
      serviceGetBatchElevations svcW [{ lat := 0, lon := 0 }, { lat := 100, lon := 0 }] =
        (Except.ok rs, s') ∧
      rs.length = [({ lat := 0, lon := 0 } : BatchPoint), { lat := 100, lon := 0 }].length ∧
      correctBatch svcW.grid [{ lat := 0, lon := 0 }, { lat := 100, lon := 0 }] rs ∧
      ∀ (g : ElevationGrid) (p : BatchPoint),
        (batchStep g p).1 = -9999 ∨
        (getElevation g p.lat p.lon).1 = Except.ok ((batchStep g p).1) :=
  serviceGetBatchElevations_shape svcW [{ lat := 0, lon := 0 }, { lat := 100, lon := 0 }]
